import Mathlib

/-!
Shallow embedding of the Petoncle agent-service core: the keyword intent
classifier (`agents/orchestrator.py`), the general chat agent with bounded
conversation history (`agents/chat_agent.py`), the three stateless
specialists (`agents/toolsmith.py`, `agents/researcher.py`,
`agents/scribe.py`) and the gRPC dispatcher validation pipeline
(`agent_service.py`).  Python strings are embedded as `List Char`.
-/

namespace Petoncle

/-- Models Python `str.lower` character-wise, covering the ASCII letters and
the Latin-1 accented capitals (the only alphabets appearing in the keyword
tables and scenario inputs of this repository). -/
def pyCharLower (c : Char) : Char :=
  if 65 ≤ c.toNat ∧ c.toNat ≤ 90 then Char.ofNat (c.toNat + 32)
  else if 192 ≤ c.toNat ∧ c.toNat ≤ 222 ∧ c.toNat ≠ 215 then Char.ofNat (c.toNat + 32)
  else c

/-- Python `message.lower()` on an embedded string. -/
def pyLowerStr (s : List Char) : List Char := s.map pyCharLower

/-- Does `needle` occur at the start of `haystack`? -/
def leadsWith : List Char → List Char → Bool
  | [], _ => true
  | _ :: _, [] => false
  | a :: as, b :: bs => a == b && leadsWith as bs

/-- Python substring membership `needle in haystack` (contiguous occurrence). -/
def containsSeg (needle : List Char) : List Char → Bool
  | [] => needle.isEmpty
  | b :: bs => leadsWith needle (b :: bs) || containsSeg needle bs

/-- The characters stripped by Python `str.strip()`. -/
def pyIsSpace (c : Char) : Bool :=
  c == ' ' || c == '\t' || c == '\n' || c == '\r' || c == '\x0b' || c == '\x0c'

/-- Python `s.strip()`: remove leading and trailing whitespace. -/
def pyStrip (s : List Char) : List Char :=
  ((s.dropWhile pyIsSpace).reverse.dropWhile pyIsSpace).reverse

/-- Python `l[-n:]`: the most recent `n` elements of a list. -/
def lastN (n : Nat) (l : List α) : List α := l.drop (l.length - n)

/-! ## Intent classifier (`agents/orchestrator.py`) -/

/-- The four intent categories of `Orchestrator.detect_intent`. -/
inductive Intent
  | command_help
  | research
  | report
  | general
deriving DecidableEq, Repr

/-- Keyword list of the `command_help` entry of `Orchestrator.INTENT_KEYWORDS`. -/
def commandHelpKeywords : List (List Char) :=
  [("comment").toList, ("syntaxe").toList, ("utiliser").toList, ("commande").toList,
   ("command").toList, ("option").toList, ("flag").toList, ("paramètre").toList,
   ("exemple").toList]

/-- Keyword list of the `research` entry of `Orchestrator.INTENT_KEYWORDS`. -/
def researchKeywords : List (List Char) :=
  [("cve").toList, ("vulnérabilité").toList, ("vulnerability").toList, ("exploit").toList,
   ("recherche").toList, ("chercher").toList, ("trouver").toList, ("poc").toList,
   ("proof of concept").toList, ("security advisory").toList]

/-- Keyword list of the `report` entry of `Orchestrator.INTENT_KEYWORDS`. -/
def reportKeywords : List (List Char) :=
  [("rapport").toList, ("report").toList, ("résumé").toList, ("summary").toList,
   ("historique").toList, ("history").toList, ("logs").toList, ("documentation").toList,
   ("documenter").toList]

/-- `Orchestrator.INTENT_KEYWORDS` in Python dict insertion order. -/
def INTENT_KEYWORDS : List (Intent × List (List Char)) :=
  [(Intent.command_help, commandHelpKeywords),
   (Intent.research, researchKeywords),
   (Intent.report, reportKeywords)]

/-- `sum(1 for keyword in keywords if keyword in message_lower)`. -/
def keywordScore (keywords : List (List Char)) (messageLower : List Char) : Nat :=
  (keywords.filter (fun k => containsSeg k messageLower)).length

/-- Python `max(scores, key=scores.get)` over the insertion-ordered score
table: the first key attaining the maximal value (CPython `max` keeps the
earlier item on ties). -/
def pyMaxKey (scores : List (Intent × Nat)) : Intent :=
  match scores with
  | [] => Intent.general
  | p :: rest => (rest.foldl (fun best q => if best.2 < q.2 then q else best) p).1

/-- `Orchestrator.detect_intent`. -/
def detect_intent (message : List Char) : Intent :=
  let message_lower := pyLowerStr message
  let scores := INTENT_KEYWORDS.map (fun p => (p.1, keywordScore p.2 message_lower))
  if 0 < scores.foldl (fun acc p => max acc p.2) 0 then
    pyMaxKey scores
  else
    Intent.general

/-! ## Conversation messages and the general chat agent (`agents/chat_agent.py`) -/

/-- Role tag of a chat message sent to the text-generation API. -/
inductive Role
  | system
  | user
  | assistant
deriving DecidableEq, Repr

/-- One role-tagged message, as the dicts built throughout the agents. -/
structure ChatMsg where
  role : Role
  content : List Char
deriving DecidableEq, Repr

/-- `ChatAgent.MAX_HISTORY_MESSAGES`. -/
def MAX_HISTORY_MESSAGES : Nat := 20

/-- `ChatAgent.API_TIMEOUT` converted to the milliseconds passed to the
Mistral client (`int(self.API_TIMEOUT * 1000)`). -/
def chatAgentTimeoutMs : Nat := 30 * 1000

/-- `timeout_ms=30000` of the Toolsmith Mistral client. -/
def toolsmithTimeoutMs : Nat := 30000

/-- `timeout_ms=30000` of the Researcher Mistral client. -/
def researcherTimeoutMs : Nat := 30000

/-- `timeout_ms=30000` of the Scribe Mistral client. -/
def scribeTimeoutMs : Nat := 30000

/-- The fixed system prompt of `ChatAgent.chat` before context is appended. -/
def chatSystemPromptBase : List Char :=
  ("You are Petoncle, an AI assistant for pentesters and security researchers.\n"
    ++ "You help users with terminal commands, security tools, and cybersecurity tasks.\n"
    ++ "\n"
    ++ "Key capabilities:\n"
    ++ "- Suggest shell commands for security testing\n"
    ++ "- Explain security tools (nmap, sqlmap, metasploit, etc.)\n"
    ++ "- Help with penetration testing workflows\n"
    ++ "- Provide command examples\n"
    ++ "\n"
    ++ "Always be helpful, concise, and security-focused.\n").toList

/-- The system prompt of `ChatAgent.chat` after the optional command-history
block: the last 5 context lines, each rendered as `$ cmd`, joined by
newlines. -/
def chatAgentSystemPrompt (context : List (List Char)) : List Char :=
  if context.isEmpty then chatSystemPromptBase
  else
    chatSystemPromptBase ++ ("\n\nRecent terminal commands:\n").toList
      ++ List.intercalate (("\n").toList)
          ((lastN 5 context).map (fun cmd => ("$ ").toList ++ cmd))

/-- An exception raised by the upstream Mistral client, identified by its
`str(e)` text. -/
structure UpError where
  text : List Char
deriving DecidableEq, Repr

/-- The exception kinds a specialist call can surface to its caller. -/
inductive AgentFailure
  | timedOut (text : List Char)
  | connectionFailed (text : List Char)
  | upstream (e : UpError)
deriving DecidableEq, Repr

/-- The `except` clause of `ChatAgent.chat`: inspect `str(e).lower()` and
re-raise a `TimeoutError`, a `ConnectionError`, or the original exception. -/
def classifyApiError (e : UpError) : AgentFailure :=
  let error_msg := pyLowerStr e.text
  if containsSeg (("timeout").toList) error_msg then
    AgentFailure.timedOut (("Mistral API call timed out after 30.0s").toList)
  else if containsSeg (("connection").toList) error_msg
      || containsSeg (("network").toList) error_msg then
    AgentFailure.connectionFailed (("Mistral API connection error: ").toList ++ e.text)
  else
    AgentFailure.upstream e

/-- The message list `ChatAgent.chat` sends upstream: the system prompt
followed by the conversation history with the new user message appended. -/
def generalMessages (history : List ChatMsg) (message : List Char)
    (context : List (List Char)) : List ChatMsg :=
  ⟨Role.system, chatAgentSystemPrompt context⟩ :: (history ++ [⟨Role.user, message⟩])

/-- The history-trimming step of `ChatAgent.chat`:
`conversation_history[-MAX_HISTORY_MESSAGES:]` when the bound is exceeded. -/
def trimHistory (h : List ChatMsg) : List ChatMsg :=
  if MAX_HISTORY_MESSAGES < h.length then h.drop (h.length - MAX_HISTORY_MESSAGES) else h

/-- `ChatAgent.chat`, with the blocking Mistral call abstracted as the
`upstream` oracle.  Returns the agent result (response or raised failure)
paired with the conversation history left behind. -/
def chatStep (upstream : List ChatMsg → Except UpError (List Char))
    (history : List ChatMsg) (message : List Char) (context : List (List Char)) :
    Except AgentFailure (List Char) × List ChatMsg :=
  let h1 := history ++ [⟨Role.user, message⟩]
  match upstream (generalMessages history message context) with
  | Except.error e => (Except.error (classifyApiError e), h1)
  | Except.ok assistant_message =>
      (Except.ok assistant_message, trimHistory (h1 ++ [⟨Role.assistant, assistant_message⟩]))

/-- One successful exchange folded over the history: `ChatAgent.chat` with an
upstream that answers the given reply. -/
def chatFoldStep (h : List ChatMsg) (p : List Char × List Char) : List ChatMsg :=
  (chatStep (fun _ => Except.ok p.2) h p.1 []).2

/-- A sequence of successful exchanges against one `ChatAgent`, starting from
the empty `conversation_history` of `ChatAgent.__init__`. -/
def runExchanges (xs : List (List Char × List Char)) : List ChatMsg :=
  xs.foldl chatFoldStep []

/-- The history a sequence of exchanges would produce with no truncation:
a user/assistant pair per exchange, oldest first. -/
def pairsFlatten : List (List Char × List Char) → List ChatMsg
  | [] => []
  | p :: rest => ⟨Role.user, p.1⟩ :: ⟨Role.assistant, p.2⟩ :: pairsFlatten rest

/-- A history made exclusively of completed exchanges: user message followed
by its assistant answer, repeated. -/
def pairedUp : List ChatMsg → Bool
  | [] => true
  | [_] => false
  | u :: a :: rest =>
      decide (u.role = Role.user) && decide (a.role = Role.assistant) && pairedUp rest

/-! ## Stateless specialists (`agents/toolsmith.py`, `agents/researcher.py`,
`agents/scribe.py`) -/

/-- `Toolsmith.SYSTEM_PROMPT`. -/
def TOOLSMITH_SYSTEM_PROMPT : List Char :=
  ("Tu es Toolsmith, expert en outils de pentesting et syntaxe CLI.\n"
    ++ "\n"
    ++ "🎯 Ton rôle:\n"
    ++ "- Expliquer la syntaxe des outils de sécurité\n"
    ++ "- Générer des commandes prêtes à l\x27emploi\n"
    ++ "- Donner des exemples concrets et pratiques\n"
    ++ "- Expliquer les options et flags importants\n"
    ++ "\n"
    ++ "🛠️ Outils que tu maîtrises parfaitement:\n"
    ++ "\n"
    ++ "**Reconnaissance:**\n"
    ++ "- nmap, masscan, rustscan\n"
    ++ "- netcat, socat\n"
    ++ "- dig, host, whois\n"
    ++ "\n"
    ++ "**Web:**\n"
    ++ "- sqlmap, nikto, dirb, gobuster, wfuzz, ffuf\n"
    ++ "- curl, wget\n"
    ++ "- burpsuite, zaproxy\n"
    ++ "\n"
    ++ "**Exploitation:**\n"
    ++ "- metasploit (msfconsole, msfvenom)\n"
    ++ "- searchsploit, exploit-db\n"
    ++ "- sqlmap, hydra, john, hashcat\n"
    ++ "\n"
    ++ "**Post-exploitation:**\n"
    ++ "- mimikatz, bloodhound, crackmapexec\n"
    ++ "- impacket suite\n"
    ++ "- enum4linux, smbclient\n"
    ++ "\n"
    ++ "**Réseau:**\n"
    ++ "- wireshark, tcpdump, tshark\n"
    ++ "- aircrack-ng, reaver\n"
    ++ "- iptables, nftables\n"
    ++ "\n"
    ++ "📋 Format de réponse:\n"
    ++ "1. Brève explication (1-2 lignes)\n"
    ++ "2. Commande(s) prête(s) à copier (formatées en code)\n"
    ++ "3. Explication des options principales\n"
    ++ "4. Exemple concret si pertinent\n"
    ++ "\n"
    ++ "💡 Style:\n"
    ++ "- Direct et concis\n"
    ++ "- Commandes prêtes à l\x27emploi\n"
    ++ "- Toujours sécurisé et éthique\n"
    ++ "- Mentionne les risques si nécessaire\n").toList

/-- `Researcher.SYSTEM_PROMPT`. -/
def RESEARCHER_SYSTEM_PROMPT : List Char :=
  ("Tu es Researcher, expert en OSINT et recherche de vulnérabilités.\n"
    ++ "\n"
    ++ "🔍 Ton rôle:\n"
    ++ "- Rechercher des CVEs et vulnérabilités\n"
    ++ "- Trouver des exploits et POCs\n"
    ++ "- Analyser les advisories de sécurité\n"
    ++ "- Résumer les informations trouvées\n"
    ++ "\n"
    ++ "🎯 Sources que tu consultes:\n"
    ++ "- CVE databases (NVD, MITRE)\n"
    ++ "- Exploit-DB, Packet Storm\n"
    ++ "- GitHub (POCs, exploits)\n"
    ++ "- Security advisories (vendors)\n"
    ++ "- CTF writeups\n"
    ++ "\n"
    ++ "📋 Format de réponse:\n"
    ++ "1. Résumé de la vulnérabilité\n"
    ++ "2. Sévérité (CVSS score si disponible)\n"
    ++ "3. Systèmes affectés\n"
    ++ "4. Exploits/POCs disponibles (avec liens si possible)\n"
    ++ "5. Recommandations de mitigation\n"
    ++ "\n"
    ++ "💡 Style:\n"
    ++ "- Factuel et précis\n"
    ++ "- Citer les sources (CVE-XXXX-XXXX)\n"
    ++ "- Indiquer la criticité\n"
    ++ "- Pratique et actionnable\n").toList

/-- `Scribe.SYSTEM_PROMPT`. -/
def SCRIBE_SYSTEM_PROMPT : List Char :=
  ("Tu es Scribe, expert en documentation et rédaction de rapports de sécurité.\n"
    ++ "\n"
    ++ "📝 Ton rôle:\n"
    ++ "- Documenter les activités de pentesting\n"
    ++ "- Générer des rapports structurés\n"
    ++ "- Résumer les findings\n"
    ++ "- Créer de la documentation claire\n"
    ++ "\n"
    ++ "📋 Types de rapports:\n"
    ++ "- Résumé d\x27activités (timeline)\n"
    ++ "- Findings de sécurité (vulnérabilités trouvées)\n"
    ++ "- Documentation technique (procédures)\n"
    ++ "- Executive summary (pour management)\n"
    ++ "\n"
    ++ "🎯 Format de rapport:\n"
    ++ "1. **Contexte** - Objectif et scope\n"
    ++ "2. **Méthodologie** - Approche utilisée\n"
    ++ "3. **Findings** - Découvertes (avec sévérité)\n"
    ++ "4. **Preuves** - Commandes et outputs\n"
    ++ "5. **Recommandations** - Actions à prendre\n"
    ++ "\n"
    ++ "💡 Style:\n"
    ++ "- Structuré et professionnel\n"
    ++ "- Markdown formaté\n"
    ++ "- Clair et concis\n"
    ++ "- Actionnable\n").toList

/-- The message list `Toolsmith.process` sends upstream.  The `context`
parameter of the Python signature is accepted but never used. -/
def toolsmithMessages (message : List Char) (_context : List (List Char)) : List ChatMsg :=
  [⟨Role.system, TOOLSMITH_SYSTEM_PROMPT⟩, ⟨Role.user, message⟩]

/-- The message list `Researcher.process` sends upstream.  The `context`
parameter of the Python signature is accepted but never used. -/
def researcherMessages (message : List Char) (_context : List (List Char)) : List ChatMsg :=
  [⟨Role.system, RESEARCHER_SYSTEM_PROMPT⟩, ⟨Role.user, message⟩]

/-- The system prompt of `Scribe.process`: the fixed prompt, plus the last 10
context lines rendered as `- cmd` when context is provided. -/
def scribeSystemPrompt (context : List (List Char)) : List Char :=
  if context.isEmpty then SCRIBE_SYSTEM_PROMPT
  else
    SCRIBE_SYSTEM_PROMPT ++ ("\n\n**Historique des commandes récentes:**\n").toList
      ++ List.intercalate (("\n").toList)
          ((lastN 10 context).map (fun cmd => ("- ").toList ++ cmd))

/-- The message list `Scribe.process` sends upstream. -/
def scribeMessages (message : List Char) (context : List (List Char)) : List ChatMsg :=
  [⟨Role.system, scribeSystemPrompt context⟩, ⟨Role.user, message⟩]

/-- `Toolsmith.process` with the Mistral call abstracted as `upstream`:
there is no except clause, so an upstream exception propagates unchanged. -/
def toolsmithProcessE (upstream : List ChatMsg → Except UpError (List Char))
    (message : List Char) (context : List (List Char)) : Except AgentFailure (List Char) :=
  match upstream (toolsmithMessages message context) with
  | Except.error e => Except.error (AgentFailure.upstream e)
  | Except.ok r => Except.ok r

/-- `Researcher.process` with the Mistral call abstracted as `upstream`:
no except clause, an upstream exception propagates unchanged. -/
def researcherProcessE (upstream : List ChatMsg → Except UpError (List Char))
    (message : List Char) (context : List (List Char)) : Except AgentFailure (List Char) :=
  match upstream (researcherMessages message context) with
  | Except.error e => Except.error (AgentFailure.upstream e)
  | Except.ok r => Except.ok r

/-- `Scribe.process` with the Mistral call abstracted as `upstream`:
no except clause, an upstream exception propagates unchanged. -/
def scribeProcessE (upstream : List ChatMsg → Except UpError (List Char))
    (message : List Char) (context : List (List Char)) : Except AgentFailure (List Char) :=
  match upstream (scribeMessages message context) with
  | Except.error e => Except.error (AgentFailure.upstream e)
  | Except.ok r => Except.ok r

/-! ## gRPC dispatcher (`agent_service.py`, `ChatServiceServicer.SendMessage`) -/

/-- The behavior of `MultiAgentSystem.process` as seen by `SendMessage`:
either a result dict with `response` and `agent`, or a raised `ValueError`,
or any other raised exception. -/
inductive ProcessResult
  | ok (response : List Char) (agentUsed : List Char)
  | valueError (text : List Char)
  | otherError (text : List Char)
deriving DecidableEq, Repr

/-- The distinct outcomes of one `SendMessage` call, before rendering into a
`ChatResponse`.  The first three are the validation failures (gRPC
INVALID_ARGUMENT), the last two the caught exceptions. -/
inductive DispatchOutcome
  | emptyMessage
  | messageTooLong
  | sanitizedEmpty
  | success (response : List Char) (agentUsed : List Char)
  | valueError (text : List Char)
  | internalError (text : List Char)
deriving DecidableEq, Repr

/-- `request.message.replace(CHR0, EMPTY).strip()` where CHR0 is the null
byte: the sanitization step of `SendMessage`. -/
def sanitizeMessage (raw : List Char) : List Char :=
  pyStrip (raw.filter (fun c => !(c == '\x00')))

/-- The validation-and-dispatch pipeline of `SendMessage`, with the
multi-agent system abstracted as the `process` oracle. -/
def dispatchClassify (process : List Char → List (List Char) → ProcessResult)
    (rawMessage : List Char) (context : List (List Char)) : DispatchOutcome :=
  if rawMessage.isEmpty then DispatchOutcome.emptyMessage
  else if 10000 < rawMessage.length then DispatchOutcome.messageTooLong
  else
    let sanitized_message := sanitizeMessage rawMessage
    if sanitized_message.isEmpty then DispatchOutcome.sanitizedEmpty
    else
      match process sanitized_message context with
      | ProcessResult.ok r a => DispatchOutcome.success r a
      | ProcessResult.valueError t => DispatchOutcome.valueError t
      | ProcessResult.otherError t => DispatchOutcome.internalError t

/-- The wire response of `SendMessage`: `message` and `agent` fields of the
`ChatResponse` protobuf. -/
structure ChatResponse where
  message : List Char
  agent : List Char
deriving DecidableEq, Repr

/-- How each `SendMessage` outcome is rendered into a `ChatResponse`. -/
def renderResponse : DispatchOutcome → ChatResponse
  | DispatchOutcome.emptyMessage =>
      ⟨("⚠️ Message cannot be empty").toList, ("error").toList⟩
  | DispatchOutcome.messageTooLong =>
      ⟨("⚠️ Message too long (max 10000 characters)").toList, ("error").toList⟩
  | DispatchOutcome.sanitizedEmpty =>
      ⟨("⚠️ Message contains invalid characters").toList, ("error").toList⟩
  | DispatchOutcome.success r a => ⟨r, a⟩
  | DispatchOutcome.valueError t =>
      ⟨("⚠️ Validation error: ").toList ++ t, ("error").toList⟩
  | DispatchOutcome.internalError t =>
      ⟨("❌ Error: ").toList ++ t, ("error").toList⟩

/-- `ChatServiceServicer.SendMessage`. -/
def sendMessage (process : List Char → List (List Char) → ProcessResult)
    (rawMessage : List Char) (context : List (List Char)) : ChatResponse :=
  renderResponse (dispatchClassify process rawMessage context)

/-- The trace of `agent_system.process` invocations one `SendMessage` call
performs: empty on every validation failure, and exactly one call with the
sanitized message otherwise. -/
def sendMessageCalls (rawMessage : List Char) (context : List (List Char)) :
    List (List Char × List (List Char)) :=
  if rawMessage.isEmpty then []
  else if 10000 < rawMessage.length then []
  else if (sanitizeMessage rawMessage).isEmpty then []
  else [(sanitizeMessage rawMessage, context)]

/-! ## Helper lemmas about the classifier -/

lemma keywordScore_eq_zero {kws : List (List Char)} {L : List Char}
    (h : ∀ k ∈ kws, containsSeg k L = false) : keywordScore kws L = 0 := by
  unfold keywordScore
  rw [List.length_eq_zero, List.filter_eq_nil_iff]
  intro a ha
  simp [h a ha]

lemma keywordScore_pos {kws : List (List Char)} {L : List Char}
    (h : ∃ k ∈ kws, containsSeg k L = true) : 0 < keywordScore kws L := by
  obtain ⟨k, hk, hks⟩ := h
  unfold keywordScore
  refine List.length_pos.mpr (List.ne_nil_of_mem (a := k) ?_)
  exact List.mem_filter.mpr ⟨hk, hks⟩

lemma detect_intent_cmd {m : List Char}
    (h1 : keywordScore researchKeywords (pyLowerStr m) ≤
      keywordScore commandHelpKeywords (pyLowerStr m))
    (h2 : keywordScore reportKeywords (pyLowerStr m) ≤
      keywordScore commandHelpKeywords (pyLowerStr m))
    (h3 : 0 < keywordScore commandHelpKeywords (pyLowerStr m)) :
    detect_intent m = Intent.command_help := by
  unfold detect_intent
  simp only [INTENT_KEYWORDS, List.map_cons, List.map_nil, List.foldl_cons, List.foldl_nil,
    pyMaxKey]
  split_ifs <;> simp_all <;> omega

lemma detect_intent_res {m : List Char}
    (h1 : keywordScore commandHelpKeywords (pyLowerStr m) <
      keywordScore researchKeywords (pyLowerStr m))
    (h2 : keywordScore reportKeywords (pyLowerStr m) ≤
      keywordScore researchKeywords (pyLowerStr m)) :
    detect_intent m = Intent.research := by
  unfold detect_intent
  simp only [INTENT_KEYWORDS, List.map_cons, List.map_nil, List.foldl_cons, List.foldl_nil,
    pyMaxKey]
  split_ifs <;> simp_all <;> omega

lemma detect_intent_rep1 {m : List Char}
    (h1 : keywordScore researchKeywords (pyLowerStr m) ≤
      keywordScore commandHelpKeywords (pyLowerStr m))
    (h2 : keywordScore commandHelpKeywords (pyLowerStr m) <
      keywordScore reportKeywords (pyLowerStr m)) :
    detect_intent m = Intent.report := by
  unfold detect_intent
  simp only [INTENT_KEYWORDS, List.map_cons, List.map_nil, List.foldl_cons, List.foldl_nil,
    pyMaxKey]
  split_ifs <;> simp_all <;> omega

lemma detect_intent_gen {m : List Char}
    (h1 : keywordScore commandHelpKeywords (pyLowerStr m) = 0)
    (h2 : keywordScore researchKeywords (pyLowerStr m) = 0)
    (h3 : keywordScore reportKeywords (pyLowerStr m) = 0) :
    detect_intent m = Intent.general := by
  unfold detect_intent
  simp only [INTENT_KEYWORDS, List.map_cons, List.map_nil, List.foldl_cons, List.foldl_nil,
    pyMaxKey]
  split_ifs <;> simp_all

/-! ## Claims about the intent classifier -/

/-- C1: for every message that contains at least one keyword from exactly one
non-general category's keyword list and no keyword from any other category's
list (substring match on the lower-cased message), `detect_intent` returns
that category. -/
theorem classify_unique_category (m : List Char) :
    ((∃ k ∈ commandHelpKeywords, containsSeg k (pyLowerStr m) = true) →
      (∀ k ∈ researchKeywords, containsSeg k (pyLowerStr m) = false) →
      (∀ k ∈ reportKeywords, containsSeg k (pyLowerStr m) = false) →
      detect_intent m = Intent.command_help) ∧
    ((∀ k ∈ commandHelpKeywords, containsSeg k (pyLowerStr m) = false) →
      (∃ k ∈ researchKeywords, containsSeg k (pyLowerStr m) = true) →
      (∀ k ∈ reportKeywords, containsSeg k (pyLowerStr m) = false) →
      detect_intent m = Intent.research) ∧
    ((∀ k ∈ commandHelpKeywords, containsSeg k (pyLowerStr m) = false) →
      (∀ k ∈ researchKeywords, containsSeg k (pyLowerStr m) = false) →
      (∃ k ∈ reportKeywords, containsSeg k (pyLowerStr m) = true) →
      detect_intent m = Intent.report) := by
  refine ⟨fun he h2 h3 => ?_, fun h1 he h3 => ?_, fun h1 h2 he => ?_⟩
  · exact detect_intent_cmd
      (by rw [keywordScore_eq_zero h2]; exact Nat.zero_le _)
      (by rw [keywordScore_eq_zero h3]; exact Nat.zero_le _)
      (keywordScore_pos he)
  · exact detect_intent_res
      (by rw [keywordScore_eq_zero h1]; exact keywordScore_pos he)
      (by rw [keywordScore_eq_zero h3]; exact Nat.zero_le _)
  · exact detect_intent_rep1
      (by rw [keywordScore_eq_zero h1, keywordScore_eq_zero h2])
      (by rw [keywordScore_eq_zero h1]; exact keywordScore_pos he)

/-- Witness for C1: the message `syntaxe` matches only the `command_help`
keyword list and is classified as `command_help`. -/
theorem classify_unique_category_witness :
    detect_intent (("syntaxe").toList) = Intent.command_help :=
  (classify_unique_category (("syntaxe").toList)).1 (by decide) (by decide) (by decide)

/-- C2: for every message in which no keyword of any non-general category
occurs as a substring of the lower-cased message, `detect_intent` returns
`general`. -/
theorem classify_no_keyword_general (m : List Char)
    (h1 : ∀ k ∈ commandHelpKeywords, containsSeg k (pyLowerStr m) = false)
    (h2 : ∀ k ∈ researchKeywords, containsSeg k (pyLowerStr m) = false)
    (h3 : ∀ k ∈ reportKeywords, containsSeg k (pyLowerStr m) = false) :
    detect_intent m = Intent.general :=
  detect_intent_gen (keywordScore_eq_zero h1) (keywordScore_eq_zero h2)
    (keywordScore_eq_zero h3)

/-- Witness for C2: the message `bonjour` matches no keyword and is
classified as `general`. -/
theorem classify_no_keyword_general_witness :
    detect_intent (("bonjour").toList) = Intent.general :=
  classify_no_keyword_general (("bonjour").toList) (by decide) (by decide) (by decide)

/-- C9: when two or more non-general categories tie for the maximum positive
keyword count, `detect_intent` deterministically returns the tied category
that appears earliest in the table order command_help, research, report, and
never falls through to `general`. -/
theorem classify_tie_earliest (m : List Char) :
    ((0 < keywordScore commandHelpKeywords (pyLowerStr m) →
      keywordScore researchKeywords (pyLowerStr m) ≤
        keywordScore commandHelpKeywords (pyLowerStr m) →
      keywordScore reportKeywords (pyLowerStr m) ≤
        keywordScore commandHelpKeywords (pyLowerStr m) →
      (keywordScore researchKeywords (pyLowerStr m) =
          keywordScore commandHelpKeywords (pyLowerStr m) ∨
        keywordScore reportKeywords (pyLowerStr m) =
          keywordScore commandHelpKeywords (pyLowerStr m)) →
      detect_intent m = Intent.command_help ∧ detect_intent m ≠ Intent.general) ∧
    (keywordScore commandHelpKeywords (pyLowerStr m) <
        keywordScore researchKeywords (pyLowerStr m) →
      keywordScore reportKeywords (pyLowerStr m) =
        keywordScore researchKeywords (pyLowerStr m) →
      detect_intent m = Intent.research ∧ detect_intent m ≠ Intent.general)) := by
  constructor
  · intro hp hr hq _
    have h := detect_intent_cmd hr hq hp
    exact ⟨h, by rw [h]; exact fun hx => Intent.noConfusion hx⟩
  · intro hlt heq
    have h := detect_intent_res hlt (Nat.le_of_eq heq)
    exact ⟨h, by rw [h]; exact fun hx => Intent.noConfusion hx⟩

/-- Witness for C9: `comment cve` scores 1 for both command_help and
research; the tie goes to command_help, not general. -/
theorem classify_tie_earliest_witness :
    detect_intent (("comment cve").toList) = Intent.command_help :=
  ((classify_tie_earliest (("comment cve").toList)).1 (by decide) (by decide) (by decide)
    (by decide)).1

/-! ## Helper lemmas about the conversation history -/

lemma chatStep_ok_history (h : List ChatMsg) (m r : List Char) (ctx : List (List Char)) :
    (chatStep (fun _ => Except.ok r) h m ctx).2 =
      trimHistory (h ++ [⟨Role.user, m⟩, ⟨Role.assistant, r⟩]) := by
  simp [chatStep, List.append_assoc]

lemma pairedUp_append (u a : List Char) (h : List ChatMsg) :
    pairedUp h = true → pairedUp (h ++ [⟨Role.user, u⟩, ⟨Role.assistant, a⟩]) = true := by
  induction h using pairedUp.induct with
  | case1 => intro _; simp [pairedUp]
  | case2 head => intro hp; exact absurd hp (by simp [pairedUp])
  | case3 x y rest ih =>
      intro hp
      rw [pairedUp] at hp
      simp only [Bool.and_eq_true] at hp
      obtain ⟨⟨h1, h2⟩, h3⟩ := hp
      show pairedUp (x :: y :: (rest ++ _)) = true
      rw [pairedUp]
      simp only [Bool.and_eq_true]
      exact ⟨⟨h1, h2⟩, ih h3⟩

lemma pairedUp_even (h : List ChatMsg) : pairedUp h = true → h.length % 2 = 0 := by
  induction h using pairedUp.induct with
  | case1 => intro _; rfl
  | case2 head => intro hp; exact absurd hp (by simp [pairedUp])
  | case3 x y rest ih =>
      intro hp
      rw [pairedUp] at hp
      simp only [Bool.and_eq_true] at hp
      have hr := ih hp.2
      simp only [List.length_cons]
      omega

lemma pairedUp_drop_two (h : List ChatMsg) : pairedUp h = true → pairedUp (h.drop 2) = true := by
  match h with
  | [] => intro _; simpa
  | [x] => intro hp; exact absurd hp (by simp [pairedUp])
  | u :: a :: rest =>
      intro hp
      rw [pairedUp] at hp
      simp only [Bool.and_eq_true] at hp
      simpa using hp.2

lemma trimHistory_paired {h : List ChatMsg} (hp : pairedUp h = true) (hl : h.length ≤ 22) :
    pairedUp (trimHistory h) = true ∧ (trimHistory h).length ≤ 20 := by
  unfold trimHistory MAX_HISTORY_MESSAGES
  split_ifs with hgt
  · have he := pairedUp_even h hp
    have h22 : h.length = 22 := by omega
    rw [h22]
    norm_num
    exact ⟨pairedUp_drop_two h hp, by simp [h22]⟩
  · exact ⟨hp, by omega⟩

lemma chatFoldStep_inv {h : List ChatMsg} (hp : pairedUp h = true) (hl : h.length ≤ 20)
    (p : List Char × List Char) :
    pairedUp (chatFoldStep h p) = true ∧ (chatFoldStep h p).length ≤ 20 := by
  unfold chatFoldStep
  rw [chatStep_ok_history]
  refine trimHistory_paired (pairedUp_append _ _ h hp) ?_
  simp only [List.length_append, List.length_cons, List.length_nil]
  omega

lemma runFold_inv (xs : List (List Char × List Char)) :
    ∀ h : List ChatMsg, pairedUp h = true → h.length ≤ 20 →
      pairedUp (xs.foldl chatFoldStep h) = true ∧ (xs.foldl chatFoldStep h).length ≤ 20 := by
  induction xs with
  | nil => intro h hp hl; simpa using ⟨hp, hl⟩
  | cons p xs ih =>
      intro h hp hl
      rw [List.foldl_cons]
      obtain ⟨hp2, hl2⟩ := chatFoldStep_inv hp hl p
      exact ih _ hp2 hl2

lemma trimHistory_suffix (h : List ChatMsg) : trimHistory h <:+ h := by
  unfold trimHistory
  split_ifs
  · exact List.drop_suffix _ _
  · exact List.suffix_refl _

lemma suffix_append_right {l₁ l₂ t : List ChatMsg} (hs : l₁ <:+ l₂) : l₁ ++ t <:+ l₂ ++ t := by
  obtain ⟨pre, hpre⟩ := hs
  exact ⟨pre, by rw [← hpre, List.append_assoc]⟩

lemma runFold_suffix (xs : List (List Char × List Char)) :
    ∀ h H : List ChatMsg, h <:+ H → xs.foldl chatFoldStep h <:+ H ++ pairsFlatten xs := by
  induction xs with
  | nil => intro h H hs; simpa [pairsFlatten] using hs
  | cons p xs ih =>
      intro h H hs
      rw [List.foldl_cons]
      have h1 : chatFoldStep h p <:+ H ++ [⟨Role.user, p.1⟩, ⟨Role.assistant, p.2⟩] := by
        unfold chatFoldStep
        rw [chatStep_ok_history]
        exact (trimHistory_suffix _).trans (suffix_append_right hs)
      have h2 := ih (chatFoldStep h p) (H ++ [⟨Role.user, p.1⟩, ⟨Role.assistant, p.2⟩]) h1
      simpa [pairsFlatten, List.append_assoc] using h2

/-! ## Claims about the conversation history -/

/-- C3: after every prefix of a sequence of successful exchanges against one
`ChatAgent`, the conversation history has length at most
`MAX_HISTORY_MESSAGES` (20), consists exclusively of completed
user/assistant pairs (so truncation never leaves a dangling unanswered user
message), and is a suffix of the untruncated exchange log (truncation only
removes messages from the oldest end, after both halves of an exchange are
appended). -/
theorem chat_history_invariant (xs : List (List Char × List Char)) (n : Nat) :
    (runExchanges (xs.take n)).length ≤ MAX_HISTORY_MESSAGES ∧
    pairedUp (runExchanges (xs.take n)) = true ∧
    runExchanges (xs.take n) <:+ pairsFlatten (xs.take n) := by
  obtain ⟨hp, hl⟩ := runFold_inv (xs.take n) [] rfl (by simp)
  refine ⟨hl, hp, ?_⟩
  simpa using runFold_suffix (xs.take n) [] [] (List.suffix_refl _)

/-- C10: when the upstream API call inside `ChatAgent.chat` raises, the
(classified) exception propagates to the caller and the user message
appended before the call remains in `conversation_history` with no matching
assistant message: the history ends with an unanswered user message. -/
theorem chat_failure_keeps_user_message
    (upstream : List ChatMsg → Except UpError (List Char)) (h : List ChatMsg)
    (m : List Char) (ctx : List (List Char)) (e : UpError)
    (hfail : upstream (generalMessages h m ctx) = Except.error e) :
    chatStep upstream h m ctx =
      (Except.error (classifyApiError e), h ++ [⟨Role.user, m⟩]) ∧
    (chatStep upstream h m ctx).2.getLast? = some ⟨Role.user, m⟩ := by
  have hres : chatStep upstream h m ctx =
      (Except.error (classifyApiError e), h ++ [⟨Role.user, m⟩]) := by
    unfold chatStep
    rw [hfail]
  exact ⟨hres, by rw [hres]; exact List.getLast?_concat h⟩

/-- Witness for C10: a failing upstream call leaves exactly the unanswered
user message in the history and surfaces the error. -/
theorem chat_failure_keeps_user_message_witness :
    chatStep (fun _ => Except.error (UpError.mk ("boom").toList)) [] (("hello").toList) [] =
      (Except.error (classifyApiError (UpError.mk ("boom").toList)),
        [ChatMsg.mk Role.user (("hello").toList)]) :=
  (chat_failure_keeps_user_message _ [] _ [] _ rfl).1

/-! ## Helper lemmas about the dispatcher -/

lemma filter_rep {p : Char → Bool} {c : Char} (h : p c = true) (n : Nat) :
    (List.replicate n c).filter p = List.replicate n c := by
  induction n with
  | zero => rfl
  | succ n ih => simp [List.replicate_succ, List.filter_cons, h, ih]

lemma dropWhile_rep {p : Char → Bool} {c : Char} (h : p c = true) (n : Nat) :
    (List.replicate n c).dropWhile p = [] := by
  induction n with
  | zero => rfl
  | succ n ih => simp [List.replicate_succ, List.dropWhile_cons, h, ih]

lemma dispatchClassify_too_long {process : List Char → List (List Char) → ProcessResult}
    {rawMessage : List Char} {context : List (List Char)}
    (hlen : 10000 < rawMessage.length) :
    dispatchClassify process rawMessage context = DispatchOutcome.messageTooLong := by
  have hne : rawMessage.isEmpty = false := by
    cases rawMessage with
    | nil => exact absurd hlen (by simp)
    | cons a l => rfl
  unfold dispatchClassify
  rw [hne]
  simp only [Bool.false_eq_true, if_false, if_pos hlen]

lemma sendMessageCalls_too_long {rawMessage : List Char} {context : List (List Char)}
    (hlen : 10000 < rawMessage.length) :
    sendMessageCalls rawMessage context = [] := by
  have hne : rawMessage.isEmpty = false := by
    cases rawMessage with
    | nil => exact absurd hlen (by simp)
    | cons a l => rfl
  unfold sendMessageCalls
  rw [hne]
  simp only [Bool.false_eq_true, if_false, if_pos hlen]

lemma dispatchClassify_empty (process : List Char → List (List Char) → ProcessResult)
    (context : List (List Char)) :
    dispatchClassify process [] context = DispatchOutcome.emptyMessage := rfl

lemma dispatchClassify_sanEmpty {process : List Char → List (List Char) → ProcessResult}
    {rawMessage : List Char} {context : List (List Char)}
    (h0 : rawMessage ≠ []) (h1 : ¬ 10000 < rawMessage.length)
    (h2 : sanitizeMessage rawMessage = []) :
    dispatchClassify process rawMessage context = DispatchOutcome.sanitizedEmpty := by
  have h0' : rawMessage.isEmpty = false := by simpa [List.isEmpty_iff] using h0
  unfold dispatchClassify
  rw [h0']
  simp only [Bool.false_eq_true, if_false, if_neg h1, h2]
  rfl

lemma dispatchClassify_valid {process : List Char → List (List Char) → ProcessResult}
    {rawMessage : List Char} {context : List (List Char)}
    (h0 : rawMessage ≠ []) (h1 : ¬ 10000 < rawMessage.length)
    (h2 : sanitizeMessage rawMessage ≠ []) :
    dispatchClassify process rawMessage context =
      (match process (sanitizeMessage rawMessage) context with
       | ProcessResult.ok r a => DispatchOutcome.success r a
       | ProcessResult.valueError t => DispatchOutcome.valueError t
       | ProcessResult.otherError t => DispatchOutcome.internalError t) := by
  have h0' : rawMessage.isEmpty = false := by simpa [List.isEmpty_iff] using h0
  have h2' : (sanitizeMessage rawMessage).isEmpty = false := by
    simpa [List.isEmpty_iff] using h2
  unfold dispatchClassify
  rw [h0']
  simp only [Bool.false_eq_true, if_false, if_neg h1, h2']

lemma sendMessageCalls_valid {rawMessage : List Char} {context : List (List Char)}
    (h0 : rawMessage ≠ []) (h1 : ¬ 10000 < rawMessage.length)
    (h2 : sanitizeMessage rawMessage ≠ []) :
    sendMessageCalls rawMessage context = [(sanitizeMessage rawMessage, context)] := by
  have h0' : rawMessage.isEmpty = false := by simpa [List.isEmpty_iff] using h0
  have h2' : (sanitizeMessage rawMessage).isEmpty = false := by
    simpa [List.isEmpty_iff] using h2
  unfold sendMessageCalls
  rw [h0']
  simp only [Bool.false_eq_true, if_false, if_neg h1, h2']

lemma sendMessageCalls_sanEmpty {rawMessage : List Char} {context : List (List Char)}
    (h2 : sanitizeMessage rawMessage = []) :
    sendMessageCalls rawMessage context = [] := by
  unfold sendMessageCalls
  split_ifs <;> simp_all

/-! ## Claims about the dispatcher validation pipeline -/

/-- C4: for every raw message longer than 10000 characters, `SendMessage`
returns the message-too-long outcome without invoking any specialist: the
result holds for every `process` oracle and the trace of `process`
invocations is empty. -/
theorem dispatch_too_long (process : List Char → List (List Char) → ProcessResult)
    (rawMessage : List Char) (context : List (List Char))
    (hlen : 10000 < rawMessage.length) :
    dispatchClassify process rawMessage context = DispatchOutcome.messageTooLong ∧
    sendMessageCalls rawMessage context = [] :=
  ⟨dispatchClassify_too_long hlen, sendMessageCalls_too_long hlen⟩

/-- Witness for C4: a message of 10001 identical characters is rejected as
too long with no specialist call. -/
theorem dispatch_too_long_witness :
    dispatchClassify (fun _ _ => ProcessResult.ok (("ok").toList) (("general").toList))
        (List.replicate 10001 'a') [] = DispatchOutcome.messageTooLong ∧
    sendMessageCalls (List.replicate 10001 'a') [] = [] :=
  dispatch_too_long _ _ [] (by rw [List.length_replicate]; norm_num)

/-- Counterexample to C5: a message of 10001 spaces is non-empty and becomes
empty after sanitization, yet `SendMessage` does not return the
sanitization error (the length check fires first). -/
theorem dispatch_sanitization_cex :
    (List.replicate 10001 ' ' : List Char) ≠ [] ∧
    sanitizeMessage (List.replicate 10001 ' ') = [] ∧
    dispatchClassify (fun _ _ => ProcessResult.ok (("ok").toList) (("general").toList))
        (List.replicate 10001 ' ') [] ≠ DispatchOutcome.sanitizedEmpty := by
  refine ⟨by apply List.length_pos.mp; rw [List.length_replicate]; norm_num, ?_, ?_⟩
  · unfold sanitizeMessage pyStrip
    rw [filter_rep (by decide), dropWhile_rep (by decide)]
    rfl
  · rw [dispatchClassify_too_long (by rw [List.length_replicate]; norm_num)]
    simp

/-- C5 (amended): `SendMessage` returns the empty-message error exactly when
the raw message is the empty string, and the distinct sanitization error
exactly when the raw message is non-empty, at most 10000 characters long,
and becomes empty after stripping null bytes and whitespace; in both cases
no specialist is invoked. -/
theorem dispatch_empty_vs_sanitization (process : List Char → List (List Char) → ProcessResult)
    (rawMessage : List Char) (context : List (List Char)) :
    (dispatchClassify process rawMessage context = DispatchOutcome.emptyMessage ↔
      rawMessage = []) ∧
    (dispatchClassify process rawMessage context = DispatchOutcome.sanitizedEmpty ↔
      (rawMessage ≠ [] ∧ rawMessage.length ≤ 10000 ∧ sanitizeMessage rawMessage = [])) ∧
    (rawMessage = [] ∨ sanitizeMessage rawMessage = [] →
      sendMessageCalls rawMessage context = []) := by
  by_cases h0 : rawMessage = []
  · subst h0
    exact ⟨by simp [dispatchClassify_empty], by simp [dispatchClassify_empty], fun _ => rfl⟩
  · by_cases h1 : 10000 < rawMessage.length
    · rw [dispatchClassify_too_long h1]
      refine ⟨iff_of_false (by simp) h0, ?_, fun _ => sendMessageCalls_too_long h1⟩
      refine iff_of_false (by simp) ?_
      rintro ⟨-, hle, -⟩
      omega
    · by_cases h2 : sanitizeMessage rawMessage = []
      · rw [dispatchClassify_sanEmpty h0 h1 h2]
        exact ⟨iff_of_false (by simp) h0,
          iff_of_true rfl ⟨h0, by omega, h2⟩,
          fun _ => sendMessageCalls_sanEmpty h2⟩
      · rw [dispatchClassify_valid h0 h1 h2]
        cases hpr : process (sanitizeMessage rawMessage) context with
        | ok r a =>
            exact ⟨iff_of_false (by simp) h0,
              iff_of_false (by simp) (fun hr => h2 hr.2.2),
              fun hor => ((hor.elim h0 h2)).elim⟩
        | valueError t =>
            exact ⟨iff_of_false (by simp) h0,
              iff_of_false (by simp) (fun hr => h2 hr.2.2),
              fun hor => ((hor.elim h0 h2)).elim⟩
        | otherError t =>
            exact ⟨iff_of_false (by simp) h0,
              iff_of_false (by simp) (fun hr => h2 hr.2.2),
              fun hor => ((hor.elim h0 h2)).elim⟩

/-- Witness for C5: a message of three spaces is rejected with the
sanitization error. -/
theorem dispatch_empty_vs_sanitization_witness :
    dispatchClassify (fun _ _ => ProcessResult.ok (("ok").toList) (("general").toList))
        (("   ").toList) [] = DispatchOutcome.sanitizedEmpty :=
  (dispatch_empty_vs_sanitization _ (("   ").toList) []).2.1.mpr
    ⟨by decide, by decide, by decide⟩

/-- C8 (amended): every `SendMessage` outcome renders into a well-formed
response; on every non-success outcome the message is non-empty, starts
with a warning or error marker, and the agent field is the sentinel
`error`; on success the response carries the specialist's text and agent
verbatim (so the wire message is empty exactly when the specialist returned
empty text). -/
theorem dispatch_always_responds (process : List Char → List (List Char) → ProcessResult)
    (rawMessage : List Char) (context : List (List Char)) :
    ((∀ r a, dispatchClassify process rawMessage context ≠ DispatchOutcome.success r a) →
      (sendMessage process rawMessage context).agent = ("error").toList ∧
      (sendMessage process rawMessage context).message ≠ [] ∧
      ((sendMessage process rawMessage context).message.head? = some '⚠' ∨
        (sendMessage process rawMessage context).message.head? = some '❌')) ∧
    (∀ r a, dispatchClassify process rawMessage context = DispatchOutcome.success r a →
      sendMessage process rawMessage context = ChatResponse.mk r a) := by
  constructor
  · intro hns
    unfold sendMessage
    cases hd : dispatchClassify process rawMessage context with
    | emptyMessage => exact ⟨rfl, by decide, Or.inl (by decide)⟩
    | messageTooLong => exact ⟨rfl, by decide, Or.inl (by decide)⟩
    | sanitizedEmpty => exact ⟨rfl, by decide, Or.inl (by decide)⟩
    | success r a => exact absurd hd (hns r a)
    | valueError t =>
        exact ⟨rfl, List.append_ne_nil_of_left_ne_nil (by decide) t, Or.inl rfl⟩
    | internalError t =>
        exact ⟨rfl, List.append_ne_nil_of_left_ne_nil (by decide) t, Or.inr rfl⟩
  · intro r a hd
    unfold sendMessage
    rw [hd]
    rfl

/-- Witness for C8: the empty-message failure path yields the `error`
sentinel agent. -/
theorem dispatch_always_responds_witness :
    (sendMessage (fun _ _ => ProcessResult.ok (("ok").toList) (("general").toList)) [] []).agent =
      ("error").toList :=
  ((dispatch_always_responds (fun _ _ => ProcessResult.ok (("ok").toList) (("general").toList))
      [] []).1
    (fun _ _ hcon => by
      rw [dispatchClassify_empty] at hcon
      exact DispatchOutcome.noConfusion hcon)).1

/-- Counterexample to C8: when the multi-agent system returns empty text for
a valid request, the wire response's message field is empty, so the message
is not non-empty on every input. -/
theorem dispatch_empty_success_message_cex :
    (sendMessage (fun _ _ => ProcessResult.ok [] (("general").toList)) (("hi").toList) []).message
      = [] := rfl

lemma lastN_idem (n : Nat) (l : List (List Char)) : lastN n (lastN n l) = lastN n l := by
  unfold lastN
  rw [List.length_drop]
  have hz : l.length - (l.length - n) - n = 0 := by omega
  rw [hz, List.drop_zero]

lemma lastN_eq_nil_iff {n : Nat} (hn : 0 < n) (l : List (List Char)) :
    lastN n l = [] ↔ l = [] := by
  unfold lastN
  constructor
  · intro h
    have hlen := congrArg List.length h
    rw [List.length_drop, List.length_nil] at hlen
    exact List.length_eq_zero.mp (by omega)
  · intro h
    subst h
    exact List.drop_nil

lemma chatAgentSystemPrompt_lastN (ctx : List (List Char)) :
    chatAgentSystemPrompt (lastN 5 ctx) = chatAgentSystemPrompt ctx := by
  unfold chatAgentSystemPrompt
  by_cases h : ctx = []
  · subst h
    rfl
  · have h1 : ctx.isEmpty = false := by simpa [List.isEmpty_iff] using h
    have h2 : (lastN 5 ctx).isEmpty = false := by
      simp [List.isEmpty_iff, lastN_eq_nil_iff (by norm_num : (0:Nat) < 5) ctx, h]
    rw [h1, h2]
    simp only [Bool.false_eq_true, if_false, lastN_idem]

lemma scribeSystemPrompt_lastN (ctx : List (List Char)) :
    scribeSystemPrompt (lastN 10 ctx) = scribeSystemPrompt ctx := by
  unfold scribeSystemPrompt
  by_cases h : ctx = []
  · subst h
    rfl
  · have h1 : ctx.isEmpty = false := by simpa [List.isEmpty_iff] using h
    have h2 : (lastN 10 ctx).isEmpty = false := by
      simp [List.isEmpty_iff, lastN_eq_nil_iff (by norm_num : (0:Nat) < 10) ctx, h]
    rw [h1, h2]
    simp only [Bool.false_eq_true, if_false, lastN_idem]


theorem specialist_context_windows (m : List Char) (ctx : List (List Char)) (h : List ChatMsg) :
    toolsmithMessages m ctx = [⟨Role.system, TOOLSMITH_SYSTEM_PROMPT⟩, ⟨Role.user, m⟩] ∧
    researcherMessages m ctx = [⟨Role.system, RESEARCHER_SYSTEM_PROMPT⟩, ⟨Role.user, m⟩] ∧
    scribeMessages m (lastN 10 ctx) = scribeMessages m ctx ∧
    generalMessages h m (lastN 5 ctx) = generalMessages h m ctx ∧
    (∀ raw : List Char, raw ≠ [] → raw.length ≤ 10000 → sanitizeMessage raw ≠ [] →
      sendMessageCalls raw ctx = [(sanitizeMessage raw, ctx)]) := by
  refine ⟨rfl, rfl, ?_, ?_, ?_⟩
  · unfold scribeMessages
    rw [scribeSystemPrompt_lastN]
  · unfold generalMessages
    rw [chatAgentSystemPrompt_lastN]
  · intro raw h0 h1 h2
    exact sendMessageCalls_valid h0 (by omega) h2

theorem specialist_context_windows_witness :
    sendMessageCalls (("hello").toList) [("ls").toList] =
      [(sanitizeMessage (("hello").toList), [("ls").toList])] :=
  (specialist_context_windows (("x").toList) [("ls").toList] []).2.2.2.2
    (("hello").toList) (by decide) (by decide) (by decide)

theorem toolsmith_context_ignored_cex :
    toolsmithMessages (("comment utiliser nmap").toList)
        [("c1").toList, ("c2").toList, ("c3").toList, ("c4").toList, ("c5").toList,
          ("c6").toList] =
      toolsmithMessages (("comment utiliser nmap").toList) [] ∧
    researcherMessages (("cherche le cve").toList)
        [("c1").toList, ("c2").toList, ("c3").toList, ("c4").toList, ("c5").toList,
          ("c6").toList] =
      researcherMessages (("cherche le cve").toList) [] :=
  ⟨rfl, rfl⟩

lemma classifyApiError_eq (e : UpError) :
    classifyApiError e =
      (if containsSeg (("timeout").toList) (pyLowerStr e.text) then
        AgentFailure.timedOut (("Mistral API call timed out after 30.0s").toList)
      else if containsSeg (("connection").toList) (pyLowerStr e.text)
          || containsSeg (("network").toList) (pyLowerStr e.text) then
        AgentFailure.connectionFailed (("Mistral API connection error: ").toList ++ e.text)
      else AgentFailure.upstream e) := rfl

theorem specialist_failure_model (m : List Char) (ctx : List (List Char)) (h : List ChatMsg)
    (e : UpError) :
    toolsmithProcessE (fun _ => Except.error e) m ctx =
      Except.error (AgentFailure.upstream e) ∧
    researcherProcessE (fun _ => Except.error e) m ctx =
      Except.error (AgentFailure.upstream e) ∧
    scribeProcessE (fun _ => Except.error e) m ctx =
      Except.error (AgentFailure.upstream e) ∧
    (chatStep (fun _ => Except.error e) h m ctx).1 =
      Except.error (classifyApiError e) ∧
    (containsSeg (("timeout").toList) (pyLowerStr e.text) = true →
      classifyApiError e =
        AgentFailure.timedOut (("Mistral API call timed out after 30.0s").toList)) ∧
    (containsSeg (("timeout").toList) (pyLowerStr e.text) = false →
      (containsSeg (("connection").toList) (pyLowerStr e.text)
        || containsSeg (("network").toList) (pyLowerStr e.text)) = true →
      classifyApiError e =
        AgentFailure.connectionFailed
          (("Mistral API connection error: ").toList ++ e.text)) ∧
    (containsSeg (("timeout").toList) (pyLowerStr e.text) = false →
      (containsSeg (("connection").toList) (pyLowerStr e.text)
        || containsSeg (("network").toList) (pyLowerStr e.text)) = false →
      classifyApiError e = AgentFailure.upstream e) ∧
    (chatAgentTimeoutMs = 30000 ∧ toolsmithTimeoutMs = 30000 ∧
      researcherTimeoutMs = 30000 ∧ scribeTimeoutMs = 30000) ∧
    (∀ u1 u2 : List ChatMsg → Except UpError (List Char),
      u1 (toolsmithMessages m ctx) = u2 (toolsmithMessages m ctx) →
        toolsmithProcessE u1 m ctx = toolsmithProcessE u2 m ctx) ∧
    (∀ u1 u2 : List ChatMsg → Except UpError (List Char),
      u1 (researcherMessages m ctx) = u2 (researcherMessages m ctx) →
        researcherProcessE u1 m ctx = researcherProcessE u2 m ctx) ∧
    (∀ u1 u2 : List ChatMsg → Except UpError (List Char),
      u1 (scribeMessages m ctx) = u2 (scribeMessages m ctx) →
        scribeProcessE u1 m ctx = scribeProcessE u2 m ctx) ∧
    (∀ u1 u2 : List ChatMsg → Except UpError (List Char),
      u1 (generalMessages h m ctx) = u2 (generalMessages h m ctx) →
        chatStep u1 h m ctx = chatStep u2 h m ctx) := by
  refine ⟨rfl, rfl, rfl, rfl, ?_, ?_, ?_, ⟨rfl, rfl, rfl, rfl⟩, ?_, ?_, ?_, ?_⟩
  · intro ht
    rw [classifyApiError_eq, ht]
    rfl
  · intro ht hc
    rw [classifyApiError_eq, ht, hc]
    rfl
  · intro ht hc
    rw [classifyApiError_eq, ht, hc]
    rfl
  · intro u1 u2 hu
    unfold toolsmithProcessE
    rw [hu]
  · intro u1 u2 hu
    unfold researcherProcessE
    rw [hu]
  · intro u1 u2 hu
    unfold scribeProcessE
    rw [hu]
  · intro u1 u2 hu
    unfold chatStep
    rw [hu]

theorem specialist_failure_model_witness :
    classifyApiError (UpError.mk (("connection refused").toList)) =
      AgentFailure.connectionFailed
        (("Mistral API connection error: ").toList ++ ("connection refused").toList) :=
  ((specialist_failure_model (("x").toList) [] []
      (UpError.mk (("connection refused").toList))).2.2.2.2.2.1) (by decide) (by decide)

theorem toolsmith_no_classification_cex :
    toolsmithProcessE (fun _ => Except.error (UpError.mk (("timeout").toList)))
        (("comment utiliser nmap").toList) [] =
      Except.error (AgentFailure.upstream (UpError.mk (("timeout").toList))) ∧
    classifyApiError (UpError.mk (("timeout").toList)) =
      AgentFailure.timedOut (("Mistral API call timed out after 30.0s").toList) ∧
    AgentFailure.upstream (UpError.mk (("timeout").toList)) ≠
      AgentFailure.timedOut (("Mistral API call timed out after 30.0s").toList) := by
  refine ⟨rfl, by decide, ?_⟩
  intro hcon
  exact AgentFailure.noConfusion hcon

end Petoncle
